import Mathlib

/-!
Verification of `winsign/sign.py` (the winsign re-signing pipeline).

Bytes are modelled as `List Nat` with each element below 256.  Python
exceptions are reified into an explicit `PyExc` type and fallible code
returns `Except PyExc α`.  Functions keep the names of the Python
functions they embed wherever Lean allows it.
-/

namespace Winsign

/-- Byte strings, one `Nat` per byte (valid bytes are `< 256`). -/
abbrev Bytes := List Nat

/-! ## Base64 (Python `base64` module, used by `pem_to_der`)

`base64.b64decode` / the encoding produced by `osslsigncode -pem` use the
standard RFC 4648 alphabet.  These model the Python standard library
(external to the repository): encoding maps each 3-byte group to 4
alphabet characters, a trailing group of 1 or 2 bytes is padded with `=`
(ASCII 61); decoding first discards characters outside the alphabet (the
default non-validating behaviour of `b64decode`), then consumes groups of
4, stopping at padding. -/

/-- ASCII code of the base64 alphabet character with index `n` (for `n < 64`). -/
def b64Char (n : Nat) : Nat :=
  if n < 26 then 65 + n
  else if n < 52 then 97 + (n - 26)
  else if n < 62 then 48 + (n - 52)
  else if n = 62 then 43
  else 47

/-- Index of an ASCII code in the base64 alphabet, `none` if it is not in it. -/
def b64Index (c : Nat) : Option Nat :=
  if 65 ≤ c ∧ c ≤ 90 then some (c - 65)
  else if 97 ≤ c ∧ c ≤ 122 then some (c - 97 + 26)
  else if 48 ≤ c ∧ c ≤ 57 then some (c - 48 + 52)
  else if c = 43 then some 62
  else if c = 47 then some 63
  else none

/-- Base64 encoding of a byte string (output is a string of ASCII codes). -/
def b64Encode : Bytes → Bytes
  | [] => []
  | [a] => [b64Char (a / 4), b64Char (a % 4 * 16), 61, 61]
  | [a, b] => [b64Char (a / 4), b64Char (a % 4 * 16 + b / 16), b64Char (b % 16 * 4), 61]
  | a :: b :: c :: rest =>
      b64Char (a / 4) :: b64Char (a % 4 * 16 + b / 16) ::
      b64Char (b % 16 * 4 + c / 64) :: b64Char (c % 64) :: b64Encode rest

/-- Decode groups of 4 base64 characters; `=` (61) is padding and stops the
decoding, as Python's non-strict `binascii.a2b_base64` does; a trailing
group of fewer than 4 characters is an error (`none`). -/
def b64DecodeChunks : Bytes → Option Bytes
  | [] => some []
  | a :: b :: c :: d :: rest =>
    match b64Index a, b64Index b with
    | some x, some y =>
      if c = 61 then some [x * 4 + y / 16]
      else
        match b64Index c with
        | some z =>
          if d = 61 then some [x * 4 + y / 16, y % 16 * 16 + z / 4]
          else
            match b64Index d with
            | some w =>
              match b64DecodeChunks rest with
              | some tail =>
                  some ((x * 4 + y / 16) :: (y % 16 * 16 + z / 4) :: (z % 4 * 64 + w) :: tail)
              | none => none
            | none => none
        | none => none
    | _, _ => none
  | _ => none

/-- Python `base64.b64decode`: discard characters outside the alphabet
(keeping padding), then decode groups of 4; `none` models `binascii.Error`. -/
def b64decode (input : Bytes) : Option Bytes :=
  b64DecodeChunks (input.filter (fun c => (b64Index c).isSome || c == 61))

/-! ## `pem_to_der` (sign.py lines 72-75) -/

/-- Python `bytes.split(b"\n")`: split a byte string on newline (10). -/
def splitLines : Bytes → List Bytes
  | [] => [[]]
  | c :: rest =>
    if c = 10 then [] :: splitLines rest
    else
      match splitLines rest with
      | l :: ls => (c :: l) :: ls
      | [] => [[c]]

/-- Python `line.startswith(b"----")`. -/
def startsWithDashes (l : Bytes) : Bool :=
  List.isPrefixOf [45, 45, 45, 45] l

/-- `pem_to_der` (sign.py 72-75): drop the lines that start with `----`,
join the remaining lines and base64-decode the result. -/
def pem_to_der (pem : Bytes) : Option Bytes :=
  b64decode (((splitLines pem).filter (fun l => !(startsWithDashes l))).flatten)

/-- A PEM file body: each line followed by a newline byte. -/
def joinLines : List Bytes → Bytes
  | [] => []
  | l :: ls => l ++ 10 :: joinLines ls

/-! ## Exceptions and the external signing utility -/

/-- Reified Python exceptions relevant to sign.py.  `osError` is `OSError`
(raised by `osslsigncode`); `valueError` is `binascii.Error`, a subclass of
`ValueError`, raised by `base64.b64decode` and NOT a subclass of `OSError`;
`signingFailed` and `malformedSignature` are the re-signing failures the
spec names `SigningFailed` / `MalformedSignature`. -/
inductive PyExc
  | osError
  | valueError
  | signingFailed
  | malformedSignature
  deriving DecidableEq

/-- Whether a reified exception is (a subclass of) `OSError`. -/
def PyExc.isOSError : PyExc → Bool
  | .osError => true
  | _ => false

/-- `osslsigncode` (sign.py 87-97), abstracted over the exit status of the
external process: raises `OSError` exactly when the exit status is
non-zero, and returns normally otherwise. -/
def osslsigncode (returncode : Nat) : Except PyExc Unit :=
  if returncode ≠ 0 then .error .osError else .ok ()

/-- `get_dummy_signature` (sign.py 131-149), abstracted over the exit
statuses of its two external-utility calls (`sign_file`, which wraps
`osslsigncode sign`, and `extract_signature`, which wraps
`osslsigncode extract-signature`) and over the PEM bytes the utility wrote
to the extraction output file.  It ends by transcoding those bytes with
`pem_to_der`; a base64 failure there is a `binascii.Error` (`valueError`). -/
def get_dummy_signature (signRC extractRC : Nat) (pem : Bytes) : Except PyExc Bytes :=
  match osslsigncode signRC with
  | .error e => .error e
  | .ok _ =>
    match osslsigncode extractRC with
    | .error e => .error e
    | .ok _ =>
      match pem_to_der pem with
      | some der => .ok der
      | none => .error .valueError

/-! ## The `winsign` pipeline (sign.py 177-211) -/

/-- The three stages of `winsign`, in order of invocation. -/
inductive Stage
  | dummy
  | resigning
  | attach
  deriving DecidableEq

/-- `winsign` (sign.py 177-211), abstracted over its three stage
computations.  It mirrors the source's three try blocks exactly: the first
stage is guarded by `except OSError` only, so a non-`OSError` exception
from it propagates to the caller; the second and third stages are guarded
by `except Exception`, which catches everything.  The returned list
records which stages were entered. -/
def winsignRun (stage1 : Except PyExc Bytes)
    (stage2 : Bytes → Except PyExc Bytes)
    (stage3 : Bytes → Except PyExc Unit) :
    Except PyExc Bool × List Stage :=
  match stage1 with
  | .error e => if e.isOSError then (.ok false, [.dummy]) else (.error e, [.dummy])
  | .ok oldSig =>
    match stage2 oldSig with
    | .error _ => (.ok false, [.dummy, .resigning])
    | .ok newsig =>
      match stage3 newsig with
      | .error _ => (.ok false, [.dummy, .resigning, .attach])
      | .ok _ => (.ok true, [.dummy, .resigning, .attach])

/-! ## SignedData and the re-signing engine -/

/-- The digest algorithms the program supports (argparse `-d` choices,
sign.py 251-257). -/
inductive DigestAlgo
  | sha1
  | sha256
  deriving DecidableEq

/-- A SignerInfo as the pipeline sees it: digest algorithm, the
message-digest authenticated attribute, and the signature value. -/
structure SignerInfo where
  digestAlgo : DigestAlgo
  messageDigest : Bytes
  signature : Bytes
  deriving DecidableEq

/-- A PKCS#7 SignedData container: certificate set plus its sole
SignerInfo (the dummy-signing step produces exactly one). -/
structure SignedData where
  certs : List Bytes
  signerInfo : SignerInfo
  deriving DecidableEq

/-- Result of the signer capability: Python returns either signature bytes
or a falsy value (the autograph stub returns `False`). -/
inductive SignerResult
  | failure
  | sig (bytes : Bytes)
  deriving DecidableEq

/-- Python truthiness of a signer result: `False` is falsy and so is `b""`. -/
def SignerResult.isFalsy : SignerResult → Bool
  | .failure => true
  | .sig b => b.isEmpty

/-- Modelled from the spec: `resign` lives in `winsign/asn1.py`, which is
not under src/.  Spec section 4.3: (1) extract the digest algorithm and
message-digest from the sole SignerInfo of the old SignedData; (2) build
the signed-attributes set carrying the message-digest unchanged and
DER-encode it (`encodeAttrs`, external codec); (3) hash that encoding with
the digest algorithm (`hashWith`, external crypto primitive); (4) submit
the result to the signer capability — a falsy result yields
`SigningFailed` and no new container is produced; (5) assemble the new
SignedData from the supplied certificates and the obtained signature,
still carrying the old message-digest. -/
def resign (encodeAttrs : DigestAlgo → Bytes → Bytes)
    (hashWith : DigestAlgo → Bytes → Bytes)
    (old : SignedData) (certs : List Bytes)
    (signer : Bytes → DigestAlgo → SignerResult) : Except PyExc SignedData :=
  let algo := old.signerInfo.digestAlgo
  let md := old.signerInfo.messageDigest
  let attrsDigest := hashWith algo (encodeAttrs algo md)
  match signer attrsDigest algo with
  | .failure => .error .signingFailed
  | .sig s =>
    if s.isEmpty then .error .signingFailed
    else .ok ⟨certs, ⟨algo, md, s⟩⟩

/-- Stage 2 of `winsign` (sign.py 190-200): decode the dummy signature
(`get_signeddata`, external codec, may fail with `MalformedSignature`),
assemble the certificate list (the real certificate first, then the
cross-certificate when supplied, sign.py 193-195), re-sign, and encode the
new SignedData back to bytes (`encodeSD`, external codec). -/
def resignStage (decode : Bytes → Except PyExc SignedData)
    (encodeAttrs : DigestAlgo → Bytes → Bytes)
    (hashWith : DigestAlgo → Bytes → Bytes)
    (encodeSD : SignedData → Bytes)
    (cert : Bytes) (crosscert : Option Bytes)
    (signer : Bytes → DigestAlgo → SignerResult)
    (oldSigBytes : Bytes) : Except PyExc Bytes :=
  match decode oldSigBytes with
  | .error e => .error e
  | .ok old =>
    match resign encodeAttrs hashWith old
        (cert :: (match crosscert with | some c => [c] | none => [])) signer with
    | .error e => .error e
    | .ok newSD => .ok (encodeSD newSD)

/-! ## Certificate-table packaging (`write_signature`, sign.py 152-161) -/

/-- WinCertificate revision constants. -/
inductive Revision
  | rev1
  | rev2
  deriving DecidableEq

/-- WinCertificate certificate-type constants. -/
inductive CertType
  | x509
  | pkcs7
  deriving DecidableEq

/-- The WinCertificate record `certificate.build` receives (sign.py
157-159): size field, revision, certificate type, and the (padded)
signature bytes. -/
structure WinCertificate where
  size : Nat
  revision : Revision
  certtype : CertType
  data : Bytes
  deriving DecidableEq

/-- What `write_signature` hands to `attach-signature`: for a PE file the
signature wrapped in a WinCertificate, otherwise the raw signature bytes. -/
inductive AttachPayload
  | wrapped (w : WinCertificate)
  | raw (sig : Bytes)
  deriving DecidableEq

/-- The payload computation of `write_signature` (sign.py 152-161),
abstracted over the result of `is_pefile(infile)`: for a PE file, pad the
signature with `(8 - len(sig) % 8) % 8` zero bytes and wrap it in a
WinCertificate with `size = len(padded) + 8`, revision REV2, certificate
type PKCS7; otherwise pass the signature bytes through unchanged. -/
def write_signature_payload (isPE : Bool) (sig : Bytes) : AttachPayload :=
  if isPE then
    let padlen := (8 - sig.length % 8) % 8
    let padded := sig ++ List.replicate padlen 0
    .wrapped ⟨padded.length + 8, .rev2, .pkcs7, padded⟩
  else
    .raw sig

/-! ## `main` (sign.py 281-346) -/

/-- The signer capability installed by `main` (sign.py 298-313),
abstracted over the loaded private key and the crypto primitive
`sign_signer_digest`: with a private key it signs the digest; without one
(the autograph path) the stub returns `False` for every input. -/
def mainSigner (priv_key : Option Bytes)
    (sign_signer_digest : Bytes → DigestAlgo → Bytes → Bytes) :
    Bytes → DigestAlgo → SignerResult :=
  match priv_key with
  | some k => fun digest algo => .sig (sign_signer_digest k algo digest)
  | none => fun _ _ => .failure

/-- Output-path resolution in `main` (sign.py 294-295):
`if not args.outfile: args.outfile = args.infile`.  `args.outfile` is
`None` when the positional argument is absent; the empty string is also
falsy in Python. -/
def resolveOutfile (infile : String) (outfile : Option String) : String :=
  match outfile with
  | none => infile
  | some o => if o = "" then infile else o

/-! ## `tmpdir` (sign.py 78-84)

The filesystem is modelled as the list of existing paths, each path a list
of name components; a path `p` is inside directory `d` when `d` is a
component-wise prefix of `p`. -/

/-- A filesystem path, as a list of name components. -/
abbrev FPath := List String

/-- The set of existing paths. -/
abbrev FS := List FPath

/-- Outcome of a Python block: normal return or a raised exception. -/
inductive Outcome (α : Type)
  | ok (a : α)
  | exc (e : PyExc)
  deriving DecidableEq

/-- `shutil.rmtree(d)`: remove `d` and everything inside it. -/
def rmtree (d : FPath) (fs : FS) : FS :=
  fs.filter (fun p => !(List.isPrefixOf d p))

/-- The `tmpdir` context manager (sign.py 78-84), given that
`tempfile.mkdtemp()` succeeds and creates directory `d`: the body runs
with the directory in place (it may create files, return normally or
raise), and the `finally` block runs `shutil.rmtree(d)` on every exit
path before the result — normal or exceptional — reaches the caller. -/
def tmpdirRun {α : Type} (d : FPath) (body : FPath → FS → Outcome α × FS)
    (fs : FS) : Outcome α × FS :=
  let fs1 := d :: fs
  let r := body d fs1
  (r.1, rmtree d r.2)

/-! ## Helper lemmas about the base64 alphabet -/

/-- Alphabet indexing inverts the alphabet character map. -/
theorem b64Index_b64Char : ∀ n < 64, b64Index (b64Char n) = some n := by decide

/-- Every alphabet character is recognised by the decoder filter and is
neither a newline, a dash, nor the padding character. -/
theorem b64Char_good : ∀ n < 64,
    ((b64Index (b64Char n)).isSome || (b64Char n == 61)) = true ∧
    b64Char n ≠ 10 ∧ b64Char n ≠ 45 ∧ b64Char n ≠ 61 := by decide

/-- Every character of a base64 encoding of valid bytes survives the
decoder filter and is neither a newline nor a dash. -/
theorem b64Encode_chars : ∀ (bs : Bytes), (∀ x ∈ bs, x < 256) →
    ∀ c ∈ b64Encode bs, ((b64Index c).isSome || (c == 61)) = true ∧ c ≠ 10 ∧ c ≠ 45
  | [], _, c, hc => by simp [b64Encode] at hc
  | [a], h, c, hc => by
      have ha : a < 256 := h a (by simp)
      simp only [b64Encode, List.mem_cons, List.not_mem_nil, or_false] at hc
      rcases hc with h1 | h1 | h1 | h1 <;> subst h1
      · exact ⟨(b64Char_good _ (by omega)).1, (b64Char_good _ (by omega)).2.1,
          (b64Char_good _ (by omega)).2.2.1⟩
      · exact ⟨(b64Char_good _ (by omega)).1, (b64Char_good _ (by omega)).2.1,
          (b64Char_good _ (by omega)).2.2.1⟩
      · exact ⟨by decide, by decide, by decide⟩
      · exact ⟨by decide, by decide, by decide⟩
  | [a, b], h, c, hc => by
      have ha : a < 256 := h a (by simp)
      have hb : b < 256 := h b (by simp)
      simp only [b64Encode, List.mem_cons, List.not_mem_nil, or_false] at hc
      rcases hc with h1 | h1 | h1 | h1 <;> subst h1
      · exact ⟨(b64Char_good _ (by omega)).1, (b64Char_good _ (by omega)).2.1,
          (b64Char_good _ (by omega)).2.2.1⟩
      · exact ⟨(b64Char_good _ (by omega)).1, (b64Char_good _ (by omega)).2.1,
          (b64Char_good _ (by omega)).2.2.1⟩
      · exact ⟨(b64Char_good _ (by omega)).1, (b64Char_good _ (by omega)).2.1,
          (b64Char_good _ (by omega)).2.2.1⟩
      · exact ⟨by decide, by decide, by decide⟩
  | a :: b :: c' :: rest, h, c, hc => by
      have ha : a < 256 := h a (by simp)
      have hb : b < 256 := h b (by simp)
      have hc' : c' < 256 := h c' (by simp)
      simp only [b64Encode, List.mem_cons] at hc
      rcases hc with h1 | h1 | h1 | h1 | h1
      · subst h1
        exact ⟨(b64Char_good _ (by omega)).1, (b64Char_good _ (by omega)).2.1,
          (b64Char_good _ (by omega)).2.2.1⟩
      · subst h1
        exact ⟨(b64Char_good _ (by omega)).1, (b64Char_good _ (by omega)).2.1,
          (b64Char_good _ (by omega)).2.2.1⟩
      · subst h1
        exact ⟨(b64Char_good _ (by omega)).1, (b64Char_good _ (by omega)).2.1,
          (b64Char_good _ (by omega)).2.2.1⟩
      · subst h1
        exact ⟨(b64Char_good _ (by omega)).1, (b64Char_good _ (by omega)).2.1,
          (b64Char_good _ (by omega)).2.2.1⟩
      · exact b64Encode_chars rest (fun x hx => h x (by simp [hx])) c h1

/-- Decoding inverts encoding on valid byte strings (group level). -/
theorem b64DecodeChunks_b64Encode : ∀ (bs : Bytes), (∀ x ∈ bs, x < 256) →
    b64DecodeChunks (b64Encode bs) = some bs
  | [], _ => rfl
  | [a], h => by
      have ha : a < 256 := h a (by simp)
      have h1 := b64Index_b64Char (a / 4) (by omega)
      have h2 := b64Index_b64Char (a % 4 * 16) (by omega)
      show b64DecodeChunks [b64Char (a / 4), b64Char (a % 4 * 16), 61, 61] = some [a]
      simp [b64DecodeChunks, h1, h2]
      omega
  | [a, b], h => by
      have ha : a < 256 := h a (by simp)
      have hb : b < 256 := h b (by simp)
      have h1 := b64Index_b64Char (a / 4) (by omega)
      have h2 := b64Index_b64Char (a % 4 * 16 + b / 16) (by omega)
      have h3 := b64Index_b64Char (b % 16 * 4) (by omega)
      have hne : b64Char (b % 16 * 4) ≠ 61 := (b64Char_good _ (by omega)).2.2.2
      show b64DecodeChunks [b64Char (a / 4), b64Char (a % 4 * 16 + b / 16),
        b64Char (b % 16 * 4), 61] = some [a, b]
      simp [b64DecodeChunks, h1, h2, h3, hne]
      omega
  | a :: b :: c :: rest, h => by
      have ha : a < 256 := h a (by simp)
      have hb : b < 256 := h b (by simp)
      have hc : c < 256 := h c (by simp)
      have ih := b64DecodeChunks_b64Encode rest (fun x hx => h x (by simp [hx]))
      have h1 := b64Index_b64Char (a / 4) (by omega)
      have h2 := b64Index_b64Char (a % 4 * 16 + b / 16) (by omega)
      have h3 := b64Index_b64Char (b % 16 * 4 + c / 64) (by omega)
      have h4 := b64Index_b64Char (c % 64) (by omega)
      have hne3 : b64Char (b % 16 * 4 + c / 64) ≠ 61 := (b64Char_good _ (by omega)).2.2.2
      have hne4 : b64Char (c % 64) ≠ 61 := (b64Char_good _ (by omega)).2.2.2
      show b64DecodeChunks (b64Char (a / 4) :: b64Char (a % 4 * 16 + b / 16) ::
        b64Char (b % 16 * 4 + c / 64) :: b64Char (c % 64) :: b64Encode rest) =
        some (a :: b :: c :: rest)
      simp [b64DecodeChunks, h1, h2, h3, h4, hne3, hne4, ih]
      omega

/-- Full `b64decode` inverts encoding on valid byte strings. -/
theorem b64decode_b64Encode (bs : Bytes) (h : ∀ x ∈ bs, x < 256) :
    b64decode (b64Encode bs) = some bs := by
  unfold b64decode
  rw [List.filter_eq_self.mpr (fun c hc => (b64Encode_chars bs h c hc).1)]
  exact b64DecodeChunks_b64Encode bs h

/-- Splitting after a newline-free line recovers that line. -/
theorem splitLines_append (l rest : Bytes) (h : ∀ c ∈ l, c ≠ 10) :
    splitLines (l ++ 10 :: rest) = l :: splitLines rest := by
  induction l with
  | nil => simp [splitLines]
  | cons c t ih =>
    have hc : c ≠ 10 := h c (by simp)
    have ht := ih (fun x hx => h x (by simp [hx]))
    simp only [List.cons_append, splitLines, if_neg hc, List.append_eq, ht]

/-- Splitting a newline-joined line list recovers the lines (plus the
empty line after the final newline, as Python's `split` does). -/
theorem splitLines_joinLines : ∀ (parts : List Bytes),
    (∀ l ∈ parts, ∀ c ∈ l, c ≠ 10) →
    splitLines (joinLines parts) = parts ++ [[]]
  | [], _ => rfl
  | l :: ls, h => by
      rw [joinLines, splitLines_append l _ (h l (by simp)),
        splitLines_joinLines ls (fun l' hl' => h l' (by simp [hl']))]
      rfl

/-- A byte string whose first byte is not a dash does not start with `----`. -/
theorem startsWithDashes_eq_false (l : Bytes) (h : ∀ c ∈ l, c ≠ 45) :
    startsWithDashes l = false := by
  cases l with
  | nil => rfl
  | cons c t =>
    have hc : c ≠ 45 := h c (by simp)
    simp [startsWithDashes, List.isPrefixOf]
    intro he
    exact absurd he.symm hc

/-! ## Claim theorems -/

/-- Claim C8: for every byte string `b`, applying `pem_to_der` to a PEM
text-safe encoding of `b` — base64 lines whose concatenation is the base64
encoding of `b`, framed by header and footer lines beginning with `----`,
each line terminated by a newline — returns exactly `b`.  `pem_to_der`
itself (see its definition above, transcribed from sign.py 72-75) drops
every line that starts with `----` and base64-decodes the concatenation of
the remaining lines. -/
theorem c8_pem_to_der_roundtrip (b : Bytes) (lines : List Bytes)
    (headerL footerL : Bytes)
    (hb : ∀ x ∈ b, x < 256)
    (hjoin : lines.flatten = b64Encode b)
    (hhead : startsWithDashes headerL = true)
    (hheadnl : ∀ c ∈ headerL, c ≠ 10)
    (hfoot : startsWithDashes footerL = true)
    (hfootnl : ∀ c ∈ footerL, c ≠ 10) :
    pem_to_der (joinLines (headerL :: (lines ++ [footerL]))) = some b := by
  have hchars : ∀ c ∈ lines.flatten,
      ((b64Index c).isSome || (c == 61)) = true ∧ c ≠ 10 ∧ c ≠ 45 := by
    rw [hjoin]; exact b64Encode_chars b hb
  have hlinesnl : ∀ l ∈ lines, ∀ c ∈ l, c ≠ 10 := fun l hl c hc =>
    (hchars c (List.mem_flatten.mpr ⟨l, hl, hc⟩)).2.1
  have hpartsnl : ∀ l ∈ headerL :: (lines ++ [footerL]), ∀ c ∈ l, c ≠ 10 := by
    intro l hl
    rcases List.mem_cons.mp hl with rfl | hl
    · exact hheadnl
    rcases List.mem_append.mp hl with hl | hl
    · exact hlinesnl l hl
    · simp only [List.mem_singleton] at hl
      subst hl
      exact hfootnl
  have hkeep : ∀ l ∈ lines, (!(startsWithDashes l)) = true := by
    intro l hl
    have hf : startsWithDashes l = false :=
      startsWithDashes_eq_false l (fun x hx =>
        (hchars x (List.mem_flatten.mpr ⟨l, hl, hx⟩)).2.2)
    simp [hf]
  unfold pem_to_der
  rw [splitLines_joinLines _ hpartsnl]
  have hfilter :
      ((headerL :: (lines ++ [footerL])) ++ [[]]).filter
        (fun l => !(startsWithDashes l)) = lines ++ [[]] := by
    simp only [List.cons_append, List.filter_cons, List.filter_append, hhead, hfoot,
      Bool.not_true, Bool.false_eq_true, if_false, List.filter_eq_self.mpr hkeep]
    simp [startsWithDashes, List.isPrefixOf]
  rw [hfilter]
  simp only [List.flatten_append, List.flatten_cons, List.flatten_nil, List.append_nil]
  rw [hjoin]
  exact b64decode_b64Encode b hb

/-- Witness for C8 at a concrete input: the PEM body
`----- / TWFu / -----` (each line newline-terminated) decodes to the
bytes of "Man". -/
theorem c8_pem_to_der_roundtrip_witness :
    pem_to_der (joinLines [[45, 45, 45, 45, 45], [84, 87, 70, 117],
      [45, 45, 45, 45, 45]]) = some [77, 97, 110] :=
  c8_pem_to_der_roundtrip [77, 97, 110] [[84, 87, 70, 117]]
    [45, 45, 45, 45, 45] [45, 45, 45, 45, 45]
    (by decide) (by decide) (by decide) (by decide) (by decide) (by decide)

/-- Claim C1: for every supported digest algorithm (covered by the
universally quantified `old`), every DER attribute encoder and every hash
function (so in particular the re-signing step never recomputes the
digest: the result does not depend on them), the message-digest attribute
value carried in the SignedData returned by `resign` equals the
message-digest attribute value extracted from the dummy SignedData. -/
theorem c1_resign_preserves_message_digest
    (encodeAttrs hashWith : DigestAlgo → Bytes → Bytes)
    (old : SignedData) (certs : List Bytes)
    (signer : Bytes → DigestAlgo → SignerResult) (newSD : SignedData)
    (h : resign encodeAttrs hashWith old certs signer = .ok newSD) :
    newSD.signerInfo.messageDigest = old.signerInfo.messageDigest ∧
    newSD.signerInfo.digestAlgo = old.signerInfo.digestAlgo := by
  simp only [resign] at h
  cases hs : signer (hashWith old.signerInfo.digestAlgo
      (encodeAttrs old.signerInfo.digestAlgo old.signerInfo.messageDigest))
      old.signerInfo.digestAlgo with
  | failure =>
    rw [hs] at h
    exact absurd h (by simp)
  | sig s =>
    rw [hs] at h
    by_cases he : s.isEmpty = true
    · simp [he] at h
    · simp [he] at h
      rw [← h]
      exact ⟨rfl, rfl⟩

/-- Witness for C1 at a concrete input: re-signing a dummy SignedData with
message digest `[1, 2]` yields a SignedData with the same message digest. -/
theorem c1_resign_preserves_message_digest_witness :
    (⟨[[9]], ⟨.sha256, [1, 2], [5]⟩⟩ : SignedData).signerInfo.messageDigest =
      (⟨[], ⟨.sha256, [1, 2], [3]⟩⟩ : SignedData).signerInfo.messageDigest ∧
    (⟨[[9]], ⟨.sha256, [1, 2], [5]⟩⟩ : SignedData).signerInfo.digestAlgo =
      (⟨[], ⟨.sha256, [1, 2], [3]⟩⟩ : SignedData).signerInfo.digestAlgo :=
  c1_resign_preserves_message_digest (fun _ md => md) (fun _ d => d)
    ⟨[], ⟨.sha256, [1, 2], [3]⟩⟩ [[9]] (fun _ _ => .sig [5])
    ⟨[[9]], ⟨.sha256, [1, 2], [5]⟩⟩ rfl

/-- Claim C2: for a PE target, `write_signature` appends exactly
`(8 - L % 8) % 8` zero bytes to a signature of length `L` (so the
signature is a prefix of the padded data and the padded length is a
multiple of 8) and wraps the result in a WinCertificate whose size field
is the padded length plus 8, with revision REV2 and certificate type
PKCS7. -/
theorem c2_pe_padding_law (sig : Bytes) :
    write_signature_payload true sig =
      .wrapped ⟨sig.length + (8 - sig.length % 8) % 8 + 8, .rev2, .pkcs7,
        sig ++ List.replicate ((8 - sig.length % 8) % 8) 0⟩ ∧
    (sig.length + (8 - sig.length % 8) % 8) % 8 = 0 := by
  constructor
  · simp [write_signature_payload]
  · omega

/-- Claim C6: for a non-PE target, `write_signature` passes the signature
bytes through to the attach operation unchanged: no padding, no
WinCertificate wrapper. -/
theorem c6_non_pe_passthrough (sig : Bytes) :
    write_signature_payload false sig = .raw sig := rfl

/-- Claim C7: for every body and every starting filesystem (given that
directory creation succeeds and yields `d`), after `tmpdir` finishes, no
path inside the temporary directory `d` (including `d` itself) exists —
whether the body returned normally or raised — and the body's outcome,
normal or exceptional, is passed through to the caller after the cleanup. -/
theorem c7_tmpdir_always_removed {α : Type} (d : FPath)
    (body : FPath → FS → Outcome α × FS) (fs : FS) :
    ((tmpdirRun d body fs).2.all (fun p => !(List.isPrefixOf d p))) = true ∧
    (tmpdirRun d body fs).1 = (body d (d :: fs)).1 := by
  constructor
  · rw [List.all_eq_true]
    intro p hp
    have hmem : p ∈ (body d (d :: fs)).2.filter (fun p => !(List.isPrefixOf d p)) := hp
    exact (List.mem_filter.mp hmem).2
  · rfl

/-- Claim C10: when no output file is given on the command line (the
argparse default `None`, or an empty string, both falsy in Python),
`main` sets the output path equal to the input path, so a successful run
overwrites the original input file in place. -/
theorem c10_outfile_defaults_to_infile (infile : String) :
    resolveOutfile infile none = infile ∧
    resolveOutfile infile (some "") = infile ∧
    ∀ o : String, o ≠ "" → resolveOutfile infile (some o) = o := by
  refine ⟨rfl, rfl, fun o ho => ?_⟩
  simp [resolveOutfile, ho]

/-- Helper: a signer that always returns the failure sentinel makes
`resign` fail with `SigningFailed`. -/
theorem resign_falsy_signer (encodeAttrs hashWith : DigestAlgo → Bytes → Bytes)
    (o : SignedData) (cs : List Bytes)
    (signer : Bytes → DigestAlgo → SignerResult)
    (hsigner : ∀ dg a, signer dg a = .failure) :
    resign encodeAttrs hashWith o cs signer = .error .signingFailed := by
  simp [resign, hsigner]

/-- Helper: with a signer that always returns the failure sentinel, the
re-signing stage errors on every input (either the decode fails or
`resign` fails). -/
theorem resignStage_falsy_signer (decode : Bytes → Except PyExc SignedData)
    (encodeAttrs hashWith : DigestAlgo → Bytes → Bytes)
    (encodeSD : SignedData → Bytes) (cert : Bytes) (crosscert : Option Bytes)
    (signer : Bytes → DigestAlgo → SignerResult) (x : Bytes)
    (hsigner : ∀ dg a, signer dg a = .failure) :
    ∃ e, resignStage decode encodeAttrs hashWith encodeSD cert crosscert
      signer x = .error e := by
  cases hd : decode x with
  | error e => exact ⟨e, by simp [resignStage, hd]⟩
  | ok o =>
    exact ⟨.signingFailed,
      by simp [resignStage, hd, resign_falsy_signer _ _ _ _ _ hsigner]⟩

/-- Claim C3: a non-zero exit status of the external utility makes
`osslsigncode` raise `OSError` (it returns normally on exit status 0), so
if either utility call of the dummy-sign stage exits non-zero,
`get_dummy_signature` raises `OSError`, `winsign` returns False, and the
attach stage is never entered (so no output file is written). -/
theorem c3_dummy_stage_failure (rc signRC extractRC : Nat) (pem : Bytes)
    (stage2 : Bytes → Except PyExc Bytes) (stage3 : Bytes → Except PyExc Unit)
    (hrc : rc ≠ 0) (h : signRC ≠ 0 ∨ extractRC ≠ 0) :
    osslsigncode rc = .error .osError ∧
    osslsigncode 0 = .ok () ∧
    get_dummy_signature signRC extractRC pem = .error .osError ∧
    winsignRun (get_dummy_signature signRC extractRC pem) stage2 stage3 =
      (.ok false, [.dummy]) ∧
    Stage.attach ∉
      (winsignRun (get_dummy_signature signRC extractRC pem) stage2 stage3).2 := by
  have hg : get_dummy_signature signRC extractRC pem = .error .osError := by
    by_cases hs : signRC = 0
    · have he : extractRC ≠ 0 := by tauto
      simp [get_dummy_signature, osslsigncode, hs, he]
    · simp [get_dummy_signature, osslsigncode, hs]
  refine ⟨by simp [osslsigncode, hrc], rfl, hg, ?_, ?_⟩
  · rw [hg]
    rfl
  · rw [hg]
    show Stage.attach ∉ [Stage.dummy]
    decide

/-- Witness for C3 at a concrete input: the sign call exits with status 1. -/
theorem c3_dummy_stage_failure_witness :
    osslsigncode 1 = .error .osError ∧
    osslsigncode 0 = .ok () ∧
    get_dummy_signature 1 0 [] = .error .osError ∧
    winsignRun (get_dummy_signature 1 0 []) Except.ok (fun _ => Except.ok ()) =
      (.ok false, [.dummy]) ∧
    Stage.attach ∉
      (winsignRun (get_dummy_signature 1 0 []) Except.ok (fun _ => Except.ok ())).2 :=
  c3_dummy_stage_failure 1 1 0 [] Except.ok (fun _ => Except.ok ())
    (by decide) (Or.inl (by decide))

/-- Claim C4: when the signer capability returns the failure sentinel,
`resign` raises `SigningFailed`; and whenever the re-signing stage raises
(for that reason or any other), `winsign` returns False strictly before
the packaging/attach stage — `write_signature` and the attach operation,
which make up the third stage, are never invoked. -/
theorem c4_resign_failure_skips_attach
    (decode : Bytes → Except PyExc SignedData)
    (encodeAttrs hashWith : DigestAlgo → Bytes → Bytes)
    (encodeSD : SignedData → Bytes) (cert : Bytes) (crosscert : Option Bytes)
    (signer : Bytes → DigestAlgo → SignerResult)
    (stage3 : Bytes → Except PyExc Unit) (db : Bytes)
    (old : SignedData) (certs : List Bytes)
    (s2 : Bytes → Except PyExc Bytes) (e : PyExc)
    (hsigner : ∀ dg a, signer dg a = .failure)
    (hs2 : s2 db = .error e) :
    resign encodeAttrs hashWith old certs signer = .error .signingFailed ∧
    winsignRun (.ok db)
      (resignStage decode encodeAttrs hashWith encodeSD cert crosscert signer)
      stage3 = (.ok false, [.dummy, .resigning]) ∧
    winsignRun (.ok db) s2 stage3 = (.ok false, [.dummy, .resigning]) ∧
    Stage.attach ∉ (winsignRun (.ok db) s2 stage3).2 := by
  have h3 : winsignRun (.ok db) s2 stage3 = (.ok false, [.dummy, .resigning]) := by
    simp [winsignRun, hs2]
  obtain ⟨e', he'⟩ := resignStage_falsy_signer decode encodeAttrs hashWith
    encodeSD cert crosscert signer db hsigner
  refine ⟨resign_falsy_signer _ _ _ _ _ hsigner, ?_, h3, ?_⟩
  · simp [winsignRun, he']
  · rw [h3]
    decide

/-- Witness for C4 at a concrete input. -/
theorem c4_resign_failure_skips_attach_witness :
    resign (fun _ md => md) (fun _ d => d) ⟨[], ⟨.sha1, [1], [2]⟩⟩ [[7]]
      (fun _ _ => .failure) = .error .signingFailed ∧
    winsignRun (.ok [0])
      (resignStage (fun _ => .ok ⟨[], ⟨.sha256, [1], [2]⟩⟩) (fun _ md => md)
        (fun _ d => d) (fun _ => []) [7] none (fun _ _ => .failure))
      (fun _ => Except.ok ()) = (.ok false, [.dummy, .resigning]) ∧
    winsignRun (.ok [0]) (fun _ => .error .malformedSignature)
      (fun _ => Except.ok ()) = (.ok false, [.dummy, .resigning]) ∧
    Stage.attach ∉ (winsignRun (.ok [0]) (fun _ => .error .malformedSignature)
      (fun _ => Except.ok ())).2 :=
  c4_resign_failure_skips_attach (fun _ => .ok ⟨[], ⟨.sha256, [1], [2]⟩⟩)
    (fun _ md => md) (fun _ d => d) (fun _ => []) [7] none (fun _ _ => .failure)
    (fun _ => Except.ok ()) [0] ⟨[], ⟨.sha1, [1], [2]⟩⟩ [[7]]
    (fun _ => .error .malformedSignature) .malformedSignature
    (fun _ _ => rfl) rfl

/-- Claim C9: when no private key is supplied, the signer capability that
`main` installs returns the failure sentinel (`False`) for every (digest,
algorithm) input, and every run of the pipeline with that signer fails —
it can never return True. -/
theorem c9_no_private_key_never_signs
    (ssd : Bytes → DigestAlgo → Bytes → Bytes) (dg : Bytes) (algo : DigestAlgo)
    (stage1 : Except PyExc Bytes)
    (decode : Bytes → Except PyExc SignedData)
    (encodeAttrs hashWith : DigestAlgo → Bytes → Bytes)
    (encodeSD : SignedData → Bytes) (cert : Bytes) (crosscert : Option Bytes)
    (stage3 : Bytes → Except PyExc Unit) :
    mainSigner none ssd dg algo = .failure ∧
    (winsignRun stage1
      (resignStage decode encodeAttrs hashWith encodeSD cert crosscert
        (mainSigner none ssd))
      stage3).1 ≠ .ok true := by
  refine ⟨rfl, ?_⟩
  cases stage1 with
  | error e =>
    by_cases he : e.isOSError = true <;> simp [winsignRun, he]
  | ok db =>
    obtain ⟨e', he'⟩ := resignStage_falsy_signer decode encodeAttrs hashWith
      encodeSD cert crosscert (mainSigner none ssd) db (fun _ _ => rfl)
    simp [winsignRun, he']

/-- Witness for C9 at a concrete input. -/
theorem c9_no_private_key_never_signs_witness :
    mainSigner none (fun _ _ d => d) [1] .sha256 = .failure ∧
    (winsignRun (.ok [0])
      (resignStage (fun _ => .ok ⟨[], ⟨.sha256, [1], [2]⟩⟩) (fun _ md => md)
        (fun _ d => d) (fun _ => []) [7] none (mainSigner none (fun _ _ d => d)))
      (fun _ => Except.ok ())).1 ≠ .ok true :=
  c9_no_private_key_never_signs (fun _ _ d => d) [1] .sha256 (.ok [0])
    (fun _ => .ok ⟨[], ⟨.sha256, [1], [2]⟩⟩) (fun _ md => md) (fun _ d => d)
    (fun _ => []) [7] none (fun _ => Except.ok ())

/-- Claim C5 counterexample: the first stage of `winsign` is guarded by
`except OSError` only (sign.py 185), so a non-`OSError` exception raised
there is not caught and `winsign` does not return False.  Concretely, when
both utility calls succeed but the extracted file contains `b"A"` — not
valid base64 — `pem_to_der` raises `binascii.Error` (a `ValueError`), and
`winsign` propagates it instead of returning a boolean. -/
theorem c5_counterexample :
    get_dummy_signature 0 0 [65] = .error .valueError ∧
    PyExc.valueError.isOSError = false ∧
    (winsignRun (get_dummy_signature 0 0 [65]) Except.ok
      (fun _ => Except.ok ())).1 = .error .valueError ∧
    (winsignRun (get_dummy_signature 0 0 [65]) Except.ok
      (fun _ => Except.ok ())).1 ≠ .ok false ∧
    (winsignRun (get_dummy_signature 0 0 [65]) Except.ok
      (fun _ => Except.ok ())).1 ≠ .ok true :=
  ⟨rfl, rfl, rfl, fun h => Except.noConfusion h, fun h => Except.noConfusion h⟩

/-- Claim C5 (amended): if the dummy-signature stage raises an `OSError`,
or the re-signing or attaching stage raises any exception, the exception
is caught at the stage boundary and `winsign` returns False; a
non-`OSError` exception raised by the dummy-signature stage propagates to
the caller; `winsign` returns True when (and only when) all three stages
complete. -/
theorem c5_stage_exception_policy
    (e1 eBad : PyExc) (db db' db'' ns ns' : Bytes)
    (s2 s2' s2'' : Bytes → Except PyExc Bytes)
    (s3 s3' s3'' : Bytes → Except PyExc Unit)
    (e2 e3 : PyExc)
    (h1 : e1.isOSError = true)
    (hbad : eBad.isOSError = false)
    (h2 : s2 db = .error e2)
    (h2' : s2' db' = .ok ns) (h3' : s3' ns = .error e3)
    (h2'' : s2'' db'' = .ok ns') (h3'' : s3'' ns' = .ok ()) :
    winsignRun (.error e1) s2 s3 = (.ok false, [.dummy]) ∧
    (winsignRun (.error eBad) s2 s3).1 = .error eBad ∧
    winsignRun (.ok db) s2 s3 = (.ok false, [.dummy, .resigning]) ∧
    winsignRun (.ok db') s2' s3' = (.ok false, [.dummy, .resigning, .attach]) ∧
    winsignRun (.ok db'') s2'' s3'' = (.ok true, [.dummy, .resigning, .attach]) := by
  refine ⟨?_, ?_, ?_, ?_, ?_⟩
  · simp [winsignRun, h1]
  · simp [winsignRun, hbad]
  · simp [winsignRun, h2]
  · simp [winsignRun, h2', h3']
  · simp [winsignRun, h2'', h3'']

/-- Witness for the amended C5 at concrete inputs. -/
theorem c5_stage_exception_policy_witness :
    winsignRun (.error .osError) (fun _ => Except.error PyExc.signingFailed)
      (fun _ => Except.ok ()) = (.ok false, [.dummy]) ∧
    (winsignRun (.error .valueError) (fun _ => Except.error PyExc.signingFailed)
      (fun _ => Except.ok ())).1 = .error .valueError ∧
    winsignRun (.ok [0]) (fun _ => Except.error PyExc.signingFailed)
      (fun _ => Except.ok ()) = (.ok false, [.dummy, .resigning]) ∧
    winsignRun (.ok [1]) Except.ok (fun _ => Except.error PyExc.osError) =
      (.ok false, [.dummy, .resigning, .attach]) ∧
    winsignRun (.ok [2]) Except.ok (fun _ => Except.ok ()) =
      (.ok true, [.dummy, .resigning, .attach]) :=
  c5_stage_exception_policy .osError .valueError [0] [1] [2] [1] [2]
    (fun _ => Except.error PyExc.signingFailed) Except.ok Except.ok
    (fun _ => Except.ok ()) (fun _ => Except.error PyExc.osError)
    (fun _ => Except.ok ()) .signingFailed .osError
    rfl rfl rfl rfl rfl rfl rfl

/-- Witness for C10 at a concrete input. -/
theorem c10_outfile_defaults_to_infile_witness :
    resolveOutfile "a.exe" none = "a.exe" ∧
    resolveOutfile "a.exe" (some "") = "a.exe" ∧
    resolveOutfile "a.exe" (some "b.exe") = "b.exe" := by
  refine ⟨(c10_outfile_defaults_to_infile "a.exe").1,
    (c10_outfile_defaults_to_infile "a.exe").2.1,
    (c10_outfile_defaults_to_infile "a.exe").2.2 "b.exe" (by decide)⟩

end Winsign
